import Mathlib

/-!
Verification development for the Re-FAP chat bot decision core
(`bot.js` / consolidated `index.js`): signal extraction, soft slot
extraction, the fault-score function, the routing decision engine,
the session slot merge, and the chat endpoint contract.

Texts are modelled as JavaScript strings (`String` / `List Char`), and
the JS regular expressions used by the code are embedded through a small
executable matcher (`Rx`) covering exactly the constructs the source
uses: literals, character classes, alternation, concatenation, greedy
character-class stars (`.*`, `\s*`), and word boundaries (`\b`).
-/

set_option maxHeartbeats 4000000
set_option maxRecDepth 8192

namespace ReFap

/-- Whitespace characters: the ones relevant to JS `trim()` and `\s`
for the texts handled here. -/
def isWsChar (c : Char) : Bool :=
  c == ' ' || c == '\t' || c == '\n' || c == '\r'

/-- JS `\w` word character (`[A-Za-z0-9_]`, no unicode flag). -/
def wordChar (c : Char) : Bool :=
  decide ('a' ≤ c ∧ c ≤ 'z') || decide ('A' ≤ c ∧ c ≤ 'Z') ||
  decide ('0' ≤ c ∧ c ≤ '9') || c == '_'

/-- ASCII digit. -/
def isDigitChar (c : Char) : Bool := decide ('0' ≤ c ∧ c ≤ '9')

/-- Letter as matched by the plate regex `[A-Z]` with the `i` flag
(ASCII either case; the text is lowercased before matching). -/
def isPlateLetter (c : Char) : Bool :=
  decide ('a' ≤ c ∧ c ≤ 'z') || decide ('A' ≤ c ∧ c ≤ 'Z')

/-- Dash literal for the plate shape. -/
def isDash (c : Char) : Bool := c == '-'

/-- JS `toLowerCase` restricted to the character ranges occurring in the
bot's vocabulary: ASCII `A–Z` and the Latin-1 uppercase letters
`À–Þ` (excluding `×`) map down by 32; everything else is unchanged. -/
def lowerChar (c : Char) : Char :=
  if decide ('A' ≤ c ∧ c ≤ 'Z') then Char.ofNat (c.toNat + 32)
  else if decide (0xC0 ≤ c.toNat ∧ c.toNat ≤ 0xDE ∧ c.toNat ≠ 0xD7) then
    Char.ofNat (c.toNat + 32)
  else c

/-- JS `toUpperCase` restricted likewise (applied by the code only to
plate tokens, which are ASCII lowercase letters, digits and dashes). -/
def upperChar (c : Char) : Char :=
  if decide ('a' ≤ c ∧ c ≤ 'z') then Char.ofNat (c.toNat - 32)
  else if decide (0xE0 ≤ c.toNat ∧ c.toNat ≤ 0xFE ∧ c.toNat ≠ 0xF7) then
    Char.ofNat (c.toNat - 32)
  else c

/-- Lowercase a character list, as the JS code lowercases whole strings. -/
def lowerList (l : List Char) : List Char := l.map lowerChar

/-- An apostrophe, built by code point so the pattern strings below can
contain it. -/
def aposStr : String := String.mk [Char.ofNat 39]

/-- Embedded regular expressions: exactly the constructs used by the
source's patterns. `ch` is a character class, `star` a greedy star over
a character class (used for `.*` as `[^\n]*` and for `\s*`), and `wb`
is the word boundary `\b`. -/
inductive Rx where
  | eps
  | ch (p : Char → Bool)
  | seq (a b : Rx)
  | alt (a b : Rx)
  | star (p : Char → Bool)
  | wb

/-- Word-boundary test between a last-consumed character and the rest of
the input (JS `\b`: word-ness differs on the two sides; ends of the
string count as non-word). -/
def atBoundary (lc : Option Char) (t : List Char) : Bool :=
  (match lc with | none => false | some c => wordChar c) !=
  (match t with | [] => false | c :: _ => wordChar c)

/-- States reachable by a greedy `p*`: consume a maximal-first run of
`p`-characters. Each state is (last consumed char, remaining input). -/
def starStates (p : Char → Bool) : Option Char → List Char →
    List (Option Char × List Char)
  | lc, [] => [(lc, [])]
  | lc, c :: r =>
      (if p c then starStates p (some c) r else []) ++ [(lc, c :: r)]

/-- Backtracking matcher: all states (last consumed char, remainder)
after matching `r` at the head of the input, in the engine's preference
order (first alternative first, greedy stars longest first). -/
def matches1 : Rx → Option Char → List Char → List (Option Char × List Char)
  | .eps, lc, t => [(lc, t)]
  | .ch _, _, [] => []
  | .ch p, _, c :: r => if p c then [(some c, r)] else []
  | .seq a b, lc, t => (matches1 a lc t).flatMap (fun st => matches1 b st.1 st.2)
  | .alt a b, lc, t => matches1 a lc t ++ matches1 b lc t
  | .star p, lc, t => starStates p lc t
  | .wb, lc, t => if atBoundary lc t then [(lc, t)] else []

/-- `RegExp.test`: try the pattern at every start position, threading the
character before the position for `\b`. -/
def rxTestAux (r : Rx) (lc : Option Char) : List Char → Bool
  | [] => !(matches1 r lc []).isEmpty
  | c :: rest => !(matches1 r lc (c :: rest)).isEmpty || rxTestAux r (some c) rest

/-- `RegExp.test` from the start of the string. -/
def rxTest (r : Rx) (t : List Char) : Bool := rxTestAux r none t

/-- `r` contains no word-boundary construct (such patterns match
monotonically under appending text). -/
def wbFree : Rx → Bool
  | .eps => true
  | .ch _ => true
  | .seq a b => wbFree a && wbFree b
  | .alt a b => wbFree a && wbFree b
  | .star _ => true
  | .wb => false

/-- Literal-string pattern. -/
def rlit (s : String) : Rx :=
  (s.toList.map (fun c => Rx.ch (fun d => d == c))).foldr Rx.seq Rx.eps

/-- Character-class pattern `[...]` over the characters of `s`. -/
def rcls (s : String) : Rx := Rx.ch (fun c => s.toList.contains c)

/-- Concatenation of a pattern list. -/
def rseq (l : List Rx) : Rx := l.foldr Rx.seq Rx.eps

/-- Alternation of a pattern list (first alternative preferred). -/
def ralt : List Rx → Rx
  | [] => Rx.ch (fun _ => false)
  | [r] => r
  | r :: rest => Rx.alt r (ralt rest)

/-- Optional pattern `e?` (greedy). -/
def ropt (r : Rx) : Rx := Rx.alt r Rx.eps

/-- `.` with no `s` flag: any character except a newline; `dotStar`
is `.*`. -/
def dotStar : Rx := Rx.star (fun c => c != '\n')

/-- `\s*`. -/
def rws : Rx := Rx.star isWsChar

/-! ### The source's regex table `PATTERNS` (signals)

All tests run on the lowercased message text; with the `i` flag this is
equivalent to matching the lowercase pattern literals below. -/

/-- `PATTERNS.nonDrivable`. -/
def nonDrivableRx : Rx := ralt
  [ rlit "démarre pas"
  , rseq [rlit "ne", ropt (rlit " "), rlit "d", rcls "eé", rlit "marre pas"]
  , rseq [rlit "impossible de d", rcls "eé", rlit "marrer"]
  , rlit "ne roule pas"
  , rlit "ne peut pas rouler"
  , rlit ("à l" ++ aposStr ++ "arrêt complet")
  , rseq [rlit "cal", rcls "ea"]
  , rseq [rlit ("s" ++ aposStr ++ "arr"), rcls "eê", rlit "te"]
  , rlit "stall" ]

/-- `PATTERNS.powerLoss`. -/
def powerLossRx : Rx := ralt
  [ rlit "plus de puissance"
  , rlit "perte de puissance"
  , rseq [rlit "mode d", rcls "eé", rlit "grad", rcls "eé"]
  , rlit "bride"
  , rlit "limp" ]

/-- `PATTERNS.fapLight`. -/
def fapLightRx : Rx := ralt
  [ rseq [rlit "voyant", rws, rlit "fap"]
  , rseq [rlit "filtre", rws, rcls "àa", rws, rlit "particules"] ]

/-- `PATTERNS.engineLight`. -/
def engineLightRx : Rx := ralt
  [ rseq [rlit "voyant ", ralt [rlit "moteur", rlit "orange"]]
  , rlit "check engine" ]

/-- `PATTERNS.regenFailed`. -/
def regenFailedRx : Rx := ralt
  [ rseq [ rlit "r", rcls "eé", rlit "g", rcls "ée", rlit "n", rcls "ée"
         , rlit "r", ralt [rlit "ation", rlit "er"], rlit " "
         , ralt [ rseq [rlit "rat", rcls "ée", ropt (rlit "e")]
                , rlit "ne se fait pas", rlit "impossible" ] ]
  , rseq [rlit "autoroute", dotStar, ralt [rlit "inutile", rlit "sans effet"]] ]

/-- `PATTERNS.fapRemoved`. -/
def fapRemovedRx : Rx := ralt
  [ rseq [ rlit "fap", dotStar
         , ralt [ rseq [rlit "d", rcls "eé", rlit "mont", rcls "ée"]
                , rseq [Rx.wb, rlit "retir", rcls "eé", Rx.wb] ] ]
  , rseq [rlit "d", rcls "eé", rlit "mont", rcls "ée", dotStar, rlit "fap"] ]

/-- `PATTERNS.diy`. -/
def diyRx : Rx := ralt
  [ rseq [rlit "je peux d", rcls "eé", rlit "monter"]
  , rseq [rlit "je sais d", rcls "eé", rlit "monter"]
  , rseq [rlit "je le fais moi", rcls "- ", rlit "m", rcls "eê", rlit "me"]
  , rlit "bricoleur" ]

/-- `PATTERNS.smokeBlack`. -/
def smokeBlackRx : Rx := rseq [rlit "fum", rcls "eé", rlit "e noire"]

/-- `PATTERNS.smokeBlue`. -/
def smokeBlueRx : Rx := rseq [rlit "fum", rcls "eé", rlit "e bleue"]

/-- `PATTERNS.smokeWhite`. -/
def smokeWhiteRx : Rx := rseq [rlit "fum", rcls "eé", rlit "e blanche"]

/-- `PATTERNS.shortTrips`. -/
def shortTripsRx : Rx :=
  ralt [rlit "petits trajets", rlit "trajets courts", rlit "ville uniquement"]

/-- `PATTERNS.adblue` (`\badblue\b`). -/
def adblueSigRx : Rx := rseq [Rx.wb, rlit "adblue", Rx.wb]

/-- `PATTERNS.egr` (`\begr\b`). -/
def egrRx : Rx := rseq [Rx.wb, rlit "egr", Rx.wb]

/-- `PATTERNS.fapCodes` (`\b(P2002|P242F|P244A|P2463|P2452|P2453)\b`,
matched on the lowercased text). -/
def fapCodesRx : Rx := rseq
  [ Rx.wb
  , ralt [ rlit "p2002", rlit "p242f", rlit "p244a"
         , rlit "p2463", rlit "p2452", rlit "p2453" ]
  , Rx.wb ]

/-! ### Regexes used by `softExtractSlots` -/

/-- `\b(fap|dpf|filtre (?:a|à) particules|risque colmatage)\b`. -/
def fapMentionRx : Rx := rseq
  [ Rx.wb
  , ralt [ rlit "fap", rlit "dpf"
         , rseq [rlit "filtre ", rcls "aà", rlit " particules"]
         , rlit "risque colmatage" ]
  , Rx.wb ]

/-- `mode d[eé]grad[eé]|perte de puissance|plus de puissance|pas de puissance`. -/
def severeSymptomRx : Rx := ralt
  [ rseq [rlit "mode d", rcls "eé", rlit "grad", rcls "eé"]
  , rlit "perte de puissance"
  , rlit "plus de puissance"
  , rlit "pas de puissance" ]

/-- `ne peux pas r[eé]g[eé]n[eé]rer|impossible de r[eé]g[eé]n[eé]rer`. -/
def regenImpossibleRx : Rx := ralt
  [ rseq [ rlit "ne peux pas r", rcls "eé", rlit "g", rcls "eé"
         , rlit "n", rcls "eé", rlit "rer" ]
  , rseq [ rlit "impossible de r", rcls "eé", rlit "g", rcls "eé"
         , rlit "n", rcls "eé", rlit "rer" ] ]

/-- `adblue` (plain substring, in `softExtractSlots`). -/
def adblueSubRx : Rx := rlit "adblue"

/-- `je peux|je sais.*d[eé]monter|moi.*d[eé]monter`. -/
def canRemoveYesRx : Rx := ralt
  [ rlit "je peux"
  , rseq [rlit "je sais", dotStar, rlit "d", rcls "eé", rlit "monter"]
  , rseq [rlit "moi", dotStar, rlit "d", rcls "eé", rlit "monter"] ]

/-- `je ne peux pas|je ne sais pas`. -/
def canRemoveNoRx : Rx := ralt [rlit "je ne peux pas", rlit "je ne sais pas"]

/-! ### Regexes used by `fapScore` and `decideRouting` -/

/-- `(fap|dpf|risque colmatage|filtre (?:a|à) particules)` (no `\b`). -/
def scoreFapRx : Rx := ralt
  [ rlit "fap", rlit "dpf", rlit "risque colmatage"
  , rseq [rlit "filtre ", rcls "aà", rlit " particules"] ]

/-- `(petits trajets|ville|trajets courts|moteur froid)`. -/
def scoreCityRx : Rx := ralt
  [rlit "petits trajets", rlit "ville", rlit "trajets courts", rlit "moteur froid"]

/-- `(perte.*puissance|plus.*puissance|pas.*puissance|mode.*d[eé]grad[eé]|fum[eé]e)`. -/
def scorePowerRx : Rx := ralt
  [ rseq [rlit "perte", dotStar, rlit "puissance"]
  , rseq [rlit "plus", dotStar, rlit "puissance"]
  , rseq [rlit "pas", dotStar, rlit "puissance"]
  , rseq [rlit "mode", dotStar, rlit "d", rcls "eé", rlit "grad", rcls "eé"]
  , rseq [rlit "fum", rcls "eé", rlit "e"] ]

/-- `(autoroute régulière|longs trajets)`. -/
def scoreHighwayRx : Rx := ralt [rlit "autoroute régulière", rlit "longs trajets"]

/-- `(perte.*puissance|mode.*d[eé]grad[eé])` (the highway penalty's
negative condition). -/
def scoreHighwayNegRx : Rx := ralt
  [ rseq [rlit "perte", dotStar, rlit "puissance"]
  , rseq [rlit "mode", dotStar, rlit "d", rcls "eé", rlit "grad", rcls "eé"] ]

/-- `perte.*puissance|plus.*puissance|pas.*puissance|mode.*d[eé]grad[eé]`
(the severity test in `decideRouting`, `i` flag, applied to the
symptoms slot). -/
def severeRoutingRx : Rx := ralt
  [ rseq [rlit "perte", dotStar, rlit "puissance"]
  , rseq [rlit "plus", dotStar, rlit "puissance"]
  , rseq [rlit "pas", dotStar, rlit "puissance"]
  , rseq [rlit "mode", dotStar, rlit "d", rcls "eé", rlit "grad", rcls "eé"] ]

/-! ### Token extraction for `String.match` on `\b...\b` shaped patterns

The postcode regex `\b\d{5}\b` and the plate regex
`\b[A-Z]{2}-\d{3}-[A-Z]{2}\b` (with `i`, on lowercased text) are fixed
character shapes between word boundaries. `findToken` returns the
leftmost fully matching token, as `String.match(...)[0]` does. -/

/-- Does the shape (a list of character classes) match a prefix of `t`? -/
def shapeMatches : List (Char → Bool) → List Char → Bool
  | [], _ => true
  | _ :: _, [] => false
  | p :: ps, c :: cs => p c && shapeMatches ps cs

/-- Word boundary after the shape's span (the shapes used end in a word
character, so the next character must be non-word or the string ends). -/
def boundaryAfter (shape : List (Char → Bool)) (t : List Char) : Bool :=
  match t.drop shape.length with
  | [] => true
  | d :: _ => !wordChar d

/-- Scan for the leftmost boundary-delimited occurrence of the shape,
tracking whether the previous character was a word character. -/
def findTokenAux (shape : List (Char → Bool)) (prevWord : Bool) :
    List Char → Option (List Char)
  | [] => none
  | c :: rest =>
      if !prevWord && shapeMatches shape (c :: rest) &&
          boundaryAfter shape (c :: rest) then
        some ((c :: rest).take shape.length)
      else findTokenAux shape (wordChar c) rest

/-- Leftmost token of the given shape in `t` (string start counts as a
boundary). -/
def findToken (shape : List (Char → Bool)) (t : List Char) : Option (List Char) :=
  findTokenAux shape false t

/-- The postcode shape `\d{5}`. -/
def postcodeShapeL : List (Char → Bool) := List.replicate 5 isDigitChar

/-- The plate shape `[A-Z]{2}-\d{3}-[A-Z]{2}` (with `i`). -/
def plateShapeL : List (Char → Bool) :=
  [ isPlateLetter, isPlateLetter, isDash, isDigitChar, isDigitChar
  , isDigitChar, isDash, isPlateLetter, isPlateLetter ]

/-! ### Data model -/

/-- The per-session slot map. Field names follow the source's
`SLOT_ORDER` plus the extra `severe` marker that `softExtractSlots`
writes; `none` models an absent key. -/
structure Slots where
  vehicle : Option String := none
  mileage : Option String := none
  driving : Option String := none
  lights : Option String := none
  symptoms : Option String := none
  codes : Option String := none
  adblue : Option String := none
  urgency : Option String := none
  canRemove : Option String := none
  postcode : Option String := none
  plate : Option String := none
  contactName : Option String := none
  phone : Option String := none
  severe : Option String := none
deriving DecidableEq

/-- The per-message signal set produced by `extractSignals`. -/
structure Signals where
  nonDrivable : Bool
  powerLoss : Bool
  fapLight : Bool
  engineLight : Bool
  regenFailed : Bool
  fapRemoved : Bool
  diy : Bool
  smokeBlack : Bool
  smokeBlue : Bool
  smokeWhite : Bool
  shortTrips : Bool
  adblue : Bool
  egr : Bool
  fapCodeHit : Bool
deriving DecidableEq

/-- A call-to-action descriptor, as emitted by `decideRouting`. -/
structure CTA where
  id : String
  type : String
  label : String
  url : String
  hint : Option String := none
deriving DecidableEq

/-- The result of one routing decision. -/
structure Routing where
  score : Int
  route : String
  ctas : List CTA
  needs : List String
deriving DecidableEq

/-! ### Signal extraction -/

/-- `extractSignals(text)`: lowercase the text, then run the fixed
pattern table. -/
def extractSignals (text : String) : Signals :=
  let t := lowerList text.toList
  { nonDrivable := rxTest nonDrivableRx t
  , powerLoss := rxTest powerLossRx t
  , fapLight := rxTest fapLightRx t
  , engineLight := rxTest engineLightRx t
  , regenFailed := rxTest regenFailedRx t
  , fapRemoved := rxTest fapRemovedRx t
  , diy := rxTest diyRx t
  , smokeBlack := rxTest smokeBlackRx t
  , smokeBlue := rxTest smokeBlueRx t
  , smokeWhite := rxTest smokeWhiteRx t
  , shortTrips := rxTest shortTripsRx t
  , adblue := rxTest adblueSigRx t
  , egr := rxTest egrRx t
  , fapCodeHit := rxTest fapCodesRx t }

/-! ### Soft slot extraction -/

/-- The symptoms value accumulated by `softExtractSlots`: the FAP
mention and the power-loss note are appended in source order onto the
initially absent key. -/
def softSymptomsVal (fapB sevB : Bool) : Option String :=
  if fapB || sevB then
    some ((if fapB then " mention FAP" else "") ++
          (if sevB then " perte puissance/mode dégradé" else ""))
  else none

/-- `softExtractSlots(text)`: high-precision extraction of a partial
slot map from one message. -/
def softExtractSlots (text : String) : Slots :=
  let t := lowerList text.toList
  { symptoms := softSymptomsVal (rxTest fapMentionRx t) (rxTest severeSymptomRx t)
  , adblue := if rxTest adblueSubRx t then some "oui" else none
  , severe :=
      if rxTest severeSymptomRx t || rxTest regenImpossibleRx t then some "oui"
      else none
  , postcode := (findToken postcodeShapeL t).map (fun l => String.mk l)
  , plate := (findToken plateShapeL t).map (fun l => String.mk (l.map upperChar))
  , canRemove :=
      if rxTest canRemoveNoRx t then some "non"
      else if rxTest canRemoveYesRx t then some "oui"
      else none }

/-! ### Session slot map and merge -/

/-- `Object.assign` on one key: the incoming value, when the key is
present, overwrites the existing one. -/
def ovr (incoming existing : Option String) : Option String :=
  match incoming with
  | some v => some v
  | none => existing

/-- The `/api/chat` handler's merge
`Object.assign(sess.slots, softExtractSlots(message))`: keys present in
the incoming partial map overwrite the session's values, all other keys
are kept. -/
def mergeSlots (existing incoming : Slots) : Slots :=
  { vehicle := ovr incoming.vehicle existing.vehicle
  , mileage := ovr incoming.mileage existing.mileage
  , driving := ovr incoming.driving existing.driving
  , lights := ovr incoming.lights existing.lights
  , symptoms := ovr incoming.symptoms existing.symptoms
  , codes := ovr incoming.codes existing.codes
  , adblue := ovr incoming.adblue existing.adblue
  , urgency := ovr incoming.urgency existing.urgency
  , canRemove := ovr incoming.canRemove existing.canRemove
  , postcode := ovr incoming.postcode existing.postcode
  , plate := ovr incoming.plate existing.plate
  , contactName := ovr incoming.contactName existing.contactName
  , phone := ovr incoming.phone existing.phone
  , severe := ovr incoming.severe existing.severe }

/-- `slots[k]?.trim?.()` truthiness: present and non-empty after
trimming, i.e. containing a non-whitespace character. -/
def present (o : Option String) : Bool :=
  match o with
  | none => false
  | some s => s.toList.any (fun c => !isWsChar c)

/-- Look up a slot by its source-level key name. -/
def slotGet (s : Slots) (k : String) : Option String :=
  if k == "vehicle" then s.vehicle
  else if k == "mileage" then s.mileage
  else if k == "driving" then s.driving
  else if k == "lights" then s.lights
  else if k == "symptoms" then s.symptoms
  else if k == "codes" then s.codes
  else if k == "adblue" then s.adblue
  else if k == "urgency" then s.urgency
  else if k == "canRemove" then s.canRemove
  else if k == "postcode" then s.postcode
  else if k == "plate" then s.plate
  else if k == "contactName" then s.contactName
  else if k == "phone" then s.phone
  else none

/-- `SLOT_ORDER`. -/
def SLOT_ORDER : List String :=
  [ "vehicle", "mileage", "driving", "lights", "symptoms", "codes", "adblue"
  , "urgency", "canRemove", "postcode", "plate", "contactName", "phone" ]

/-- `REQUIRED_FOR_OFFER`. -/
def REQUIRED_FOR_OFFER : List String := ["vehicle", "driving", "symptoms"]

/-- `nextMissingSlot(slots)`: the first slot in priority order that is
not present. -/
def nextMissingSlot (s : Slots) : Option String :=
  SLOT_ORDER.find? (fun k => !present (slotGet s k))

/-- `readyForOffer(slots)`: all required slots present. -/
def readyForOffer (s : Slots) : Bool :=
  REQUIRED_FOR_OFFER.all (fun k => present (slotGet s k))

/-! ### Fault score -/

/-- The concatenated, lowercased symptom-relevant text
`` `${slots.lights||""} ${slots.symptoms||""} ${slots.driving||""}` ``. -/
def fapText (slots : Slots) : List Char :=
  lowerList ((slots.lights.getD "").toList ++ [' '] ++
             (slots.symptoms.getD "").toList ++ [' '] ++
             (slots.driving.getD "").toList)

/-- The highway penalty's condition: long-highway driving mentioned
without power-loss/degraded-mode indicators. -/
def fapHighwayPenalty (t : List Char) : Bool :=
  rxTest scoreHighwayRx t && !rxTest scoreHighwayNegRx t

/-- `fapScore(slots)`: weighted keyword sum over the symptom-relevant
text, clamped to `[0, 100]`. -/
def fapScore (slots : Slots) : Int :=
  let txt := fapText slots
  let s : Int :=
    (if rxTest scoreFapRx txt then 30 else 0) +
    (if rxTest scoreCityRx txt then 20 else 0) +
    (if rxTest scorePowerRx txt then 30 else 0) +
    (if rxTest adblueSubRx txt then 15 else 0) -
    (if fapHighwayPenalty txt then 20 else 0)
  max 0 (min 100 s)

/-! ### Routing decision engine -/

/-- `CTA_IDGARAGES` default URL. -/
def IDGARAGES_URL : String :=
  "https://www.idgarages.com/fr-fr/prestations/diagnostic-electronique?utm_source=re-fap&utm_medium=partenariat&utm_campaign=diagnostic-electronique&ept-publisher=re-fap&ept-name=re-fap-diagnostic-electronique"

/-- `CTA_RE_FAP` default URL. -/
def RE_FAP_URL : String := "https://auto.re-fap.fr"

/-- The diagnostic-booking CTA pushed by the severe and high-score
partner-garage branches. -/
def ctaDiag : CTA :=
  { id := "cta_diag", type := "fap", label := "Devis diag près de chez moi"
  , url := IDGARAGES_URL
  , hint := some "Renseigne ton immatriculation et ton code postal pour obtenir des devis immédiats." }

/-- The diagnostic-booking CTA pushed by the likely-but-uncertain branch
(same id, shorter hint). -/
def ctaDiagUncertain : CTA :=
  { ctaDiag with
    hint := some "Renseigne ton immatriculation et ton code postal pour obtenir des devis." }

/-- The Carter-Cash drop-off CTA. -/
def ctaCarter : CTA :=
  { id := "cta_carter", type := "fap"
  , label := "Trouver un Carter-Cash près de chez moi"
  , url := "https://www.carter-cash.com/magasins/"
  , hint := some "Apporte ton FAP démonté : ils proposent le nettoyage Re-FAP." }

/-- The informational Re-FAP CTA appended on every branch. -/
def ctaRefap : CTA :=
  { id := "cta_refap", type := "info"
  , label := "Nettoyage FAP Re-FAP — infos & tarifs", url := RE_FAP_URL }

/-- The callback CTA appended on every branch. -/
def ctaRappel : CTA :=
  { id := "cta_rappel", type := "callback", label := "Être rappelé rapidement"
  , url := "#lead" }

/-- The generic garage-finder CTA (env `CTA_GENERIC` absent, so its URL
falls back to the idgarages default). -/
def ctaGeneric : CTA :=
  { id := "cta_generic", type := "generic", label := "Trouver un garage"
  , url := IDGARAGES_URL }

/-- JS truthiness of an optional string slot (`!slots.postcode`):
present and non-empty. -/
def strTruthy (o : Option String) : Bool := !(o.getD "").isEmpty

/-- The missing-slot asks pushed by the partner-garage branches:
postcode then plate, each when falsy. -/
def needsOf (slots : Slots) : List String :=
  (if strTruthy slots.postcode then [] else ["postcode"]) ++
  (if strTruthy slots.plate then [] else ["plate"])

/-- The severity flag of `decideRouting`: the `severe` slot equals
`"oui"`, or the symptoms slot matches the power-loss/degraded-mode
regex. -/
def severeFlag (slots : Slots) : Bool :=
  slots.severe == some "oui" ||
  rxTest severeRoutingRx (lowerList (slots.symptoms.getD "").toList)

/-- `(slots.canRemove||"").toLowerCase().startsWith("o")`. -/
def canRemoveYes (slots : Slots) : Bool :=
  match lowerList (slots.canRemove.getD "").toList with
  | c :: _ => c == 'o'
  | [] => false

/-- `decideRouting(slots)`: the ordered first-match-wins decision
chain; the informational and callback CTAs are appended on every
branch (the severe branch pushes them itself before returning). -/
def decideRouting (slots : Slots) : Routing :=
  let score := fapScore slots
  let severe := severeFlag slots
  if severe = true ∧ score ≥ 40 then
    { score := score, route := "partner_garage", needs := needsOf slots
    , ctas := [ctaDiag, ctaRefap, ctaRappel] }
  else
    let base : Routing :=
      if score ≥ 60 then
        if canRemoveYes slots = true then
          { score := score, route := "self_remove_cc", needs := []
          , ctas := [ctaCarter] }
        else
          { score := score, route := "partner_garage", needs := needsOf slots
          , ctas := [ctaDiag] }
      else if score ≥ 40 then
        { score := score, route := "likely_but_uncertain", needs := []
        , ctas := [ctaDiagUncertain] }
      else
        { score := score, route := "generic", needs := [], ctas := [ctaGeneric] }
    { base with ctas := base.ctas ++ [ctaRefap, ctaRappel] }

/-! ### Chat endpoint -/

/-- The `message` field of the request body: absent, present but not a
string, or a string. -/
inductive MsgField where
  | absent
  | notString
  | str (s : String)
deriving DecidableEq

/-- The successful response payload of `/api/chat` (the LLM-produced
`reply` text is an external collaborator and is not modelled). -/
structure ChatOk where
  sessionId : String
  stage : String
  next : Option String
  ctas : List CTA
  cta : Option CTA
deriving DecidableEq

/-- The `/api/chat` outcome: HTTP 400 with an error body, or HTTP 200
with a payload. -/
inductive ChatRes where
  | badRequest
  | ok (r : ChatOk)
deriving DecidableEq

/-- The in-memory `sessions` map (session id to slot map; the rolling
LLM history is not part of any decision and is not modelled). -/
abbrev Store := List (String × Slots)

/-- `sessions.get`. -/
def storeGet (st : Store) (k : String) : Option Slots :=
  (List.find? (fun p => p.1 == k) st).map (fun p => p.2)

/-- `sessions.set`. -/
def storeSet (st : Store) (k : String) (v : Slots) : Store :=
  match st with
  | [] => [(k, v)]
  | p :: r => if p.1 == k then (k, v) :: r else p :: storeSet r k v

/-- `pickFallbackCTA(msg)` with the env CTAs `CTA_FAP`/`CTA_GENERIC`
absent: always `null`. -/
def pickFallbackCTA (_msg : String) : Option CTA := none

/-- One non-mock turn of `app.post("/api/chat")`: validate the message,
resolve or create the session, merge the soft-extracted slots, compute
stage, routing, the next question and the CTA payload. `freshId` stands
for the randomly generated id used when the request carries no (or an
empty) session id. -/
def chatTurn (msg : MsgField) (inSessionId : Option String) (store : Store)
    (freshId : String) : ChatRes × Store :=
  match msg with
  | .absent => (.badRequest, store)
  | .notString => (.badRequest, store)
  | .str m =>
    if m = "" then (.badRequest, store)
    else
      let sid := match inSessionId with
        | none => freshId
        | some s => if s = "" then freshId else s
      let slots0 := (storeGet store sid).getD {}
      let slots1 := mergeSlots slots0 (softExtractSlots m)
      let stage := if readyForOffer slots1 then "offer" else "diag"
      let routing := decideRouting slots1
      let next :=
        if stage == "diag" then nextMissingSlot slots1
        else if routing.route == "partner_garage" && !routing.needs.isEmpty then
          routing.needs.head?
        else none
      let ctasArr := routing.ctas
      ( .ok { sessionId := sid, stage := stage, next := next
            , ctas := ctasArr.take 3
            , cta := match ctasArr.head? with
                     | some c => some c
                     | none => pickFallbackCTA m }
      , storeSet store sid slots1 )

/-- Stage of a chat outcome (`none` on a 400). -/
def resStage : ChatRes → Option String
  | .badRequest => none
  | .ok r => some r.stage

/-- Session id echoed by a chat outcome (`none` on a 400). -/
def resSessionId : ChatRes → Option String
  | .badRequest => none
  | .ok r => some r.sessionId

/-- CTA list of a chat outcome (empty on a 400). -/
def resCtas : ChatRes → List CTA
  | .badRequest => []
  | .ok r => r.ctas

/-! ### The specification's decision table (spec side of the refinement)

Modelled from the spec: §4.4's ordered decision table, evaluated
top-to-bottom with first match wins. The route names map to the spec's
as: `partner_garage` = partner-garage, `self_remove_cc` =
self-remove-partner-shop, `likely_but_uncertain` = likely-but-uncertain,
`generic` = generic; slot absence for the missing-slot asks is
missing-or-empty. -/

/-- Route column of the spec's decision table. -/
def specRoute (slots : Slots) : String :=
  if severeFlag slots = true ∧ fapScore slots ≥ 40 then "partner_garage"
  else if fapScore slots ≥ 60 ∧ canRemoveYes slots = true then "self_remove_cc"
  else if fapScore slots ≥ 60 then "partner_garage"
  else if fapScore slots ≥ 40 then "likely_but_uncertain"
  else "generic"

/-- Primary-CTA column of the spec's decision table, by CTA id
(`cta_diag` = diagnostic-booking, `cta_carter` = drop-off-shop,
`cta_generic` = generic-garage-finder). -/
def specPrimaryId (slots : Slots) : String :=
  if severeFlag slots = true ∧ fapScore slots ≥ 40 then "cta_diag"
  else if fapScore slots ≥ 60 ∧ canRemoveYes slots = true then "cta_carter"
  else if fapScore slots ≥ 60 then "cta_diag"
  else if fapScore slots ≥ 40 then "cta_diag"
  else "cta_generic"

/-- Missing-slot-asks column of the spec's decision table: postcode and
plate, when absent, on the two partner-garage rows. -/
def specNeeds (slots : Slots) : List String :=
  if severeFlag slots = true ∧ fapScore slots ≥ 40 then needsOf slots
  else if fapScore slots ≥ 60 ∧ canRemoveYes slots = true then []
  else if fapScore slots ≥ 60 then needsOf slots
  else []

/-! ### Scenario C: the three-turn session of the spec's test list -/

/-- Session store after turn 1 of scenario C
(message `"Peugeot 206 1.6 HDi 2010"`, fresh session `s1`). -/
def scenarioCStore1 : Store :=
  (chatTurn (.str "Peugeot 206 1.6 HDi 2010") none [] "s1").2

/-- Session store after turn 2 of scenario C
(message `"fumée noire en ville"`). -/
def scenarioCStore2 : Store :=
  (chatTurn (.str "fumée noire en ville") (some "s1") scenarioCStore1 "x").2

/-- Turn 3 of scenario C (message `"mode dégradé"`). -/
def scenarioCTurn3 : ChatRes × Store :=
  chatTurn (.str "mode dégradé") (some "s1") scenarioCStore2 "x"

/-! ## Lemmas: matcher monotonicity under appended text -/

/-- A non-empty flag gives a member. -/
theorem isEmpty_false_ne_nil {α : Type} {l : List α} (h : l.isEmpty = false) :
    l ≠ [] := by
  intro hh
  subst hh
  simp at h

/-- A member makes a list non-empty. -/
theorem mem_isEmpty_false {α : Type} {x : α} {l : List α} (h : x ∈ l) :
    l.isEmpty = false := by
  cases l with
  | nil => cases h
  | cons a as => rfl

/-- The zero-consumption state is always reachable by a star. -/
theorem starStates_self (p : Char → Bool) (lc : Option Char) :
    ∀ u : List Char, (lc, u) ∈ starStates p lc u
  | [] => by simp [starStates]
  | c :: r => by simp [starStates]

/-- Star states survive appending text to the input. -/
theorem starStates_append (p : Char → Bool) (e : List Char) :
    ∀ (lc : Option Char) (t : List Char) (st : Option Char × List Char),
      st ∈ starStates p lc t → (st.1, st.2 ++ e) ∈ starStates p lc (t ++ e) := by
  intro lc t
  induction t generalizing lc with
  | nil =>
    intro st h
    simp only [starStates, List.mem_singleton] at h
    subst h
    simpa using starStates_self p lc e
  | cons c r ih =>
    intro st h
    simp only [starStates] at h
    rcases List.mem_append.mp h with h1 | h2
    · by_cases hc : p c = true
      · rw [if_pos hc] at h1
        have := ih (some c) st h1
        simp only [List.cons_append, starStates]
        exact List.mem_append_left _ (by rw [if_pos hc]; exact this)
      · rw [if_neg hc] at h1
        cases h1
    · have hst : st = (lc, c :: r) := by simpa using h2
      subst hst
      simp only [List.cons_append, starStates]
      exact List.mem_append_right _ (by simp)

/-- For a word-boundary-free pattern, every match state survives
appending text: the same consumption re-runs and the remainder grows by
the appended suffix. -/
theorem matches1_append (e : List Char) :
    ∀ (r : Rx), wbFree r = true → ∀ (lc : Option Char) (t : List Char)
      (st : Option Char × List Char), st ∈ matches1 r lc t →
      (st.1, st.2 ++ e) ∈ matches1 r lc (t ++ e)
  | .eps, _, lc, t, st, h => by
      simp only [matches1, List.mem_singleton] at h
      subst h
      simp [matches1]
  | .ch p, _, lc, t, st, h => by
      cases t with
      | nil => simp [matches1] at h
      | cons c r' =>
        simp only [matches1] at h
        by_cases hc : p c = true
        · rw [if_pos hc] at h
          have hst : st = (some c, r') := by simpa using h
          subst hst
          simp only [List.cons_append, matches1]
          rw [if_pos hc]
          simp
        · rw [if_neg hc] at h
          cases h
  | .seq a b, hw, lc, t, st, h => by
      simp only [wbFree, Bool.and_eq_true] at hw
      simp only [matches1, List.mem_flatMap] at h ⊢
      obtain ⟨st1, h1, h2⟩ := h
      exact ⟨(st1.1, st1.2 ++ e), matches1_append e a hw.1 lc t st1 h1,
             matches1_append e b hw.2 st1.1 st1.2 st h2⟩
  | .alt a b, hw, lc, t, st, h => by
      simp only [wbFree, Bool.and_eq_true] at hw
      simp only [matches1, List.mem_append] at h ⊢
      rcases h with h | h
      · exact Or.inl (matches1_append e a hw.1 lc t st h)
      · exact Or.inr (matches1_append e b hw.2 lc t st h)
  | .star p, _, lc, t, st, h => by
      simpa only [matches1] using starStates_append p e lc t st (by simpa [matches1] using h)
  | .wb, hw, _, _, _, _ => by simp [wbFree] at hw

/-- A successful match at some position yields a successful test. -/
theorem rxTestAux_of_match (r : Rx) (lc : Option Char) (t : List Char)
    (h : (matches1 r lc t).isEmpty = false) : rxTestAux r lc t = true := by
  cases t with
  | nil => simp [rxTestAux, h]
  | cons c rest => simp [rxTestAux, h]

/-- `RegExp.test` for a word-boundary-free pattern is monotone under
appending text to the input. -/
theorem rxTestAux_mono (r : Rx) (hw : wbFree r = true) (e : List Char) :
    ∀ (lc : Option Char) (t : List Char), rxTestAux r lc t = true →
      rxTestAux r lc (t ++ e) = true := by
  intro lc t
  induction t generalizing lc with
  | nil =>
    intro h
    simp only [rxTestAux, Bool.not_eq_true'] at h
    obtain ⟨st, hst⟩ := List.exists_mem_of_ne_nil _ (isEmpty_false_ne_nil h)
    have hm := matches1_append e r hw lc [] st hst
    simp only [List.nil_append] at hm ⊢
    exact rxTestAux_of_match r lc e (mem_isEmpty_false hm)
  | cons c rest ih =>
    intro h
    simp only [rxTestAux, Bool.or_eq_true, Bool.not_eq_true'] at h
    rcases h with h | h
    · obtain ⟨st, hst⟩ := List.exists_mem_of_ne_nil _ (isEmpty_false_ne_nil h)
      have hm := matches1_append e r hw lc (c :: rest) st hst
      simp only [List.cons_append] at hm ⊢
      exact rxTestAux_of_match r lc (c :: (rest ++ e)) (mem_isEmpty_false hm)
    · have := ih (some c) h
      simp only [List.cons_append, rxTestAux, Bool.or_eq_true]
      exact Or.inr this

/-- `rxTest` monotonicity under appended text, for word-boundary-free
patterns. -/
theorem rxTest_mono (r : Rx) (hw : wbFree r = true) (t e : List Char)
    (h : rxTest r t = true) : rxTest r (t ++ e) = true :=
  rxTestAux_mono r hw e none t h

/-! ## Lemmas: fault-score structure -/

/-- String append distributes over `toList`. -/
theorem string_toList_append (a b : String) :
    (a ++ b).toList = a.toList ++ b.toList := by
  cases a
  cases b
  rfl

/-- Appending to the driving slot appends (lowercased) to the
concatenated symptom text. -/
theorem fapText_append (slots : Slots) (extra : String) :
    fapText { slots with driving := some (slots.driving.getD "" ++ extra) } =
      fapText slots ++ lowerList extra.toList := by
  simp [fapText, lowerList, string_toList_append, List.map_append,
    List.append_assoc]

/-- A weighted indicator is monotone along an implication of its
condition. -/
theorem ite_int_mono {b1 b2 : Bool} (w : Int) (hw : 0 ≤ w)
    (h : b1 = true → b2 = true) :
    (if b1 = true then w else 0) ≤ (if b2 = true then w else 0) := by
  cases b1 with
  | false =>
    cases b2 with
    | false => simp
    | true => simpa using hw
  | true =>
    simp [h rfl]

/-- The five score regexes contain no word boundary. -/
theorem score_rx_wbFree :
    wbFree scoreFapRx = true ∧ wbFree scoreCityRx = true ∧
    wbFree scorePowerRx = true ∧ wbFree adblueSubRx = true ∧
    wbFree scoreHighwayRx = true ∧ wbFree scoreHighwayNegRx = true := by
  refine ⟨?_, ?_, ?_, ?_, ?_, ?_⟩ <;> rfl

/-! ## Lemmas: soft extraction and merge -/

/-- `softExtractSlots` never writes the vehicle slot. -/
theorem softExtractSlots_vehicle (m : String) :
    (softExtractSlots m).vehicle = none := rfl

/-- `softExtractSlots` never writes the driving slot. -/
theorem softExtractSlots_driving (m : String) :
    (softExtractSlots m).driving = none := rfl

/-- `softExtractSlots` never writes the lights slot. -/
theorem softExtractSlots_lights (m : String) :
    (softExtractSlots m).lights = none := rfl

/-- An incoming key present with value `v` overwrites. -/
theorem ovr_some (v : String) (o : Option String) : ovr (some v) o = some v := rfl

/-- A present incoming key overwrites. -/
theorem ovr_isSome {i o : Option String} (h : i.isSome = true) : ovr i o = i := by
  cases i with
  | none => cases h
  | some v => rfl

/-- An absent incoming key keeps the existing value. -/
theorem ovr_none (o : Option String) : ovr none o = o := rfl

/-- Whatever `softExtractSlots` stores in the symptoms key is a
non-blank string, so overwriting a present symptoms slot keeps it
present. -/
theorem present_ovr_softSymptoms (b1 b2 : Bool) (o : Option String)
    (h : present o = true) :
    present (ovr (softSymptomsVal b1 b2) o) = true := by
  cases b1 with
  | false =>
    cases b2 with
    | false => simpa [softSymptomsVal, ovr] using h
    | true =>
      rw [show softSymptomsVal false true =
            some " perte puissance/mode dégradé" from rfl, ovr_some]
      decide
  | true =>
    cases b2 with
    | false =>
      rw [show softSymptomsVal true false = some " mention FAP" from rfl, ovr_some]
      decide
    | true =>
      rw [show softSymptomsVal true true =
            some (" mention FAP" ++ " perte puissance/mode dégradé") from rfl,
        ovr_some]
      decide

/-- `readyForOffer` unfolded to the three required slots. -/
theorem readyForOffer_iff (s : Slots) :
    readyForOffer s = true ↔
      (present s.vehicle = true ∧ present s.driving = true ∧
       present s.symptoms = true) := by
  constructor
  · intro h
    simpa [readyForOffer, REQUIRED_FOR_OFFER, slotGet] using h
  · intro h
    simpa [readyForOffer, REQUIRED_FOR_OFFER, slotGet] using h

/-- One merged turn preserves readiness: vehicle and driving are never
written by `softExtractSlots`, and the symptoms key, when written, holds
non-blank text. -/
theorem step_preserves_ready (s : Slots) (m : String)
    (h : readyForOffer s = true) :
    readyForOffer (mergeSlots s (softExtractSlots m)) = true := by
  rw [readyForOffer_iff] at h ⊢
  obtain ⟨h1, h2, h3⟩ := h
  refine ⟨?_, ?_, ?_⟩
  · show present (ovr (softExtractSlots m).vehicle s.vehicle) = true
    rw [softExtractSlots_vehicle, ovr_none]
    exact h1
  · show present (ovr (softExtractSlots m).driving s.driving) = true
    rw [softExtractSlots_driving, ovr_none]
    exact h2
  · exact present_ovr_softSymptoms _ _ _ h3

/-! ## Lemmas: token shapes -/

/-- A successful shape match covers exactly the shape's length. -/
theorem shapeMatches_take :
    ∀ (shape : List (Char → Bool)) (t : List Char),
      shapeMatches shape t = true →
      (t.take shape.length).length = shape.length ∧
      shapeMatches shape (t.take shape.length) = true
  | [], t, _ => by simp [shapeMatches]
  | p :: ps, [], h => by simp [shapeMatches] at h
  | p :: ps, c :: cs, h => by
      simp only [shapeMatches, Bool.and_eq_true] at h
      obtain ⟨hc, hs⟩ := h
      have ih := shapeMatches_take ps cs hs
      simp only [List.length_cons, List.take_succ_cons, shapeMatches,
        Bool.and_eq_true]
      exact ⟨by rw [ih.1], hc, ih.2⟩

/-- The token returned by the boundary scan has exactly the shape's
length and satisfies the shape pointwise. -/
theorem findTokenAux_some :
    ∀ (shape : List (Char → Bool)) (pw : Bool) (t v : List Char),
      findTokenAux shape pw t = some v →
      v.length = shape.length ∧ shapeMatches shape v = true
  | _, _, [], v, h => by simp [findTokenAux] at h
  | shape, pw, c :: rest, v, h => by
      rw [findTokenAux] at h
      split at h
      · next hcond =>
          have hv : v = (c :: rest).take shape.length := by
            have := Option.some.inj h
            exact this.symm
          subst hv
          have hm : shapeMatches shape (c :: rest) = true := by
            simp only [Bool.and_eq_true] at hcond
            exact hcond.1.2
          exact shapeMatches_take shape (c :: rest) hm
      · exact findTokenAux_some shape (wordChar c) rest v h

/-- A full match of a replicated class means every character satisfies
the class. -/
theorem shapeMatches_replicate_all :
    ∀ (n : Nat) (p : Char → Bool) (v : List Char),
      shapeMatches (List.replicate n p) v = true → v.length = n →
      v.all p = true
  | 0, p, v, _, hl => by
      have : v = [] := List.length_eq_zero.mp hl
      subst this
      rfl
  | n + 1, p, v, h, hl => by
      cases v with
      | nil => simp at hl
      | cons c cs =>
        rw [List.replicate_succ] at h
        simp only [shapeMatches, Bool.and_eq_true] at h
        simp only [List.length_cons, Nat.add_right_cancel_iff] at hl
        simp only [List.all_cons, Bool.and_eq_true]
        exact ⟨h.1, shapeMatches_replicate_all n p cs h.2 hl⟩

/-! ## Claim theorems -/

/-- C3: for every slot map the fault score `fapScore` is in the closed
interval `[0, 100]`; the clamp binds at the low end (a lone
highway-driving mention drives the raw sum to `-20`, clamped to `0`),
and the upper bound holds for every slot map (the additive rules sum to
at most `95`, so the `min 100` clamp is never exceeded). -/
theorem fapScore_in_range :
    (∀ slots : Slots, 0 ≤ fapScore slots ∧ fapScore slots ≤ 100) ∧
    fapScore { driving := some "longs trajets" } = 0 := by
  refine ⟨fun slots => ⟨le_max_left _ _, ?_⟩, by decide⟩
  simp only [fapScore]
  exact max_le (by norm_num) (min_le_left _ _)

/-- C8: once a session's slot map satisfies `readyForOffer`
(`READY_TO_OFFER`), it still satisfies it after any sequence of further
turns, each merging that turn's soft-extracted slots — the stage never
returns to `GATHERING`: the merge never writes the vehicle or driving
keys, and only ever overwrites the symptoms key with non-blank text. -/
theorem ready_stays_ready (slots : Slots) (msgs : List String)
    (h : readyForOffer slots = true) :
    readyForOffer
      (msgs.foldl (fun s m => mergeSlots s (softExtractSlots m)) slots) = true := by
  induction msgs generalizing slots with
  | nil => exact h
  | cons m rest ih =>
    exact ih (mergeSlots slots (softExtractSlots m)) (step_preserves_ready slots m h)

/-- Witness for `ready_stays_ready`: a ready session stays ready across
two further turns. -/
theorem ready_stays_ready_witness :
    readyForOffer { vehicle := some "Peugeot 206 1.6 HDi"
                  , driving := some "ville", symptoms := some "voyant fap" } = true ∧
    readyForOffer
      (["mode dégradé", "je ne sais pas"].foldl
        (fun s m => mergeSlots s (softExtractSlots m))
        { vehicle := some "Peugeot 206 1.6 HDi", driving := some "ville"
        , symptoms := some "voyant fap" }) = true :=
  ⟨by decide,
   ready_stays_ready
     { vehicle := some "Peugeot 206 1.6 HDi", driving := some "ville"
     , symptoms := some "voyant fap" }
     ["mode dégradé", "je ne sais pas"] (by decide)⟩

/-- C4 counterexample: appending text that matches an additional
positive-weight indicator can decrease the fault score without the
highway penalty being involved. Appending `" adblue"` (which matches
the `+15` AdBlue indicator) to the lights slot of
`{lights := "risque", symptoms := "colmatage"}` breaks the cross-slot
phrase `"risque colmatage"` (`+30`), dropping the score from 30 to 15,
while the highway penalty fires in neither state. -/
theorem fapScore_insert_decrease_ce :
    fapScore { lights := some ("risque" ++ " adblue"), symptoms := some "colmatage" } <
      fapScore { lights := some "risque", symptoms := some "colmatage" } ∧
    rxTest adblueSubRx (lowerList " adblue".toList) = true ∧
    fapHighwayPenalty
      (fapText { lights := some "risque", symptoms := some "colmatage" }) = false ∧
    fapHighwayPenalty
      (fapText { lights := some ("risque" ++ " adblue")
               , symptoms := some "colmatage" }) = false := by
  refine ⟨by decide, by decide, by decide, by decide⟩

/-- C4 (amended): appending text at the end of the concatenated
symptom-relevant text — i.e. extending the driving slot, the last slot
in the concatenation — never decreases the fault score except through
the explicit highway-driving penalty rule (hypothesis: the penalty does
not newly fire). Appending inside the concatenation (to lights or
symptoms) can decrease the score by breaking a cross-slot phrase match,
as the counterexample shows. -/
theorem fapScore_append_driving_mono (slots : Slots) (extra : String)
    (hpen : fapHighwayPenalty
        (fapText { slots with driving := some (slots.driving.getD "" ++ extra) }) = true →
      fapHighwayPenalty (fapText slots) = true) :
    fapScore slots ≤
      fapScore { slots with driving := some (slots.driving.getD "" ++ extra) } := by
  have htxt := fapText_append slots extra
  obtain ⟨w1, w2, w3, w4, _w5, _w6⟩ := score_rx_wbFree
  rw [htxt] at hpen
  simp only [fapScore, htxt]
  set t := fapText slots with ht
  set e := lowerList extra.toList with he
  have h1 : (if rxTest scoreFapRx t = true then (30 : Int) else 0) ≤
      (if rxTest scoreFapRx (t ++ e) = true then (30 : Int) else 0) :=
    ite_int_mono _ (by norm_num) (fun h => rxTest_mono _ w1 _ _ h)
  have h2 : (if rxTest scoreCityRx t = true then (20 : Int) else 0) ≤
      (if rxTest scoreCityRx (t ++ e) = true then (20 : Int) else 0) :=
    ite_int_mono _ (by norm_num) (fun h => rxTest_mono _ w2 _ _ h)
  have h3 : (if rxTest scorePowerRx t = true then (30 : Int) else 0) ≤
      (if rxTest scorePowerRx (t ++ e) = true then (30 : Int) else 0) :=
    ite_int_mono _ (by norm_num) (fun h => rxTest_mono _ w3 _ _ h)
  have h4 : (if rxTest adblueSubRx t = true then (15 : Int) else 0) ≤
      (if rxTest adblueSubRx (t ++ e) = true then (15 : Int) else 0) :=
    ite_int_mono _ (by norm_num) (fun h => rxTest_mono _ w4 _ _ h)
  have h5 : (if fapHighwayPenalty (t ++ e) = true then (20 : Int) else 0) ≤
      (if fapHighwayPenalty t = true then (20 : Int) else 0) :=
    ite_int_mono _ (by norm_num) hpen
  refine max_le_max le_rfl (min_le_min le_rfl ?_)
  omega

/-- Witness for `fapScore_append_driving_mono`: appending `" ville"` to
the driving slot of `{symptoms := "fap"}` (score 30) does not decrease
the score (it becomes 50). -/
theorem fapScore_append_driving_mono_witness :
    (fapHighwayPenalty
        (fapText { ({ symptoms := some "fap" } : Slots) with
          driving := some (({ symptoms := some "fap" } : Slots).driving.getD "" ++ " ville") }) = true →
      fapHighwayPenalty (fapText ({ symptoms := some "fap" } : Slots)) = true) ∧
    fapScore ({ symptoms := some "fap" } : Slots) ≤
      fapScore { ({ symptoms := some "fap" } : Slots) with
        driving := some (({ symptoms := some "fap" } : Slots).driving.getD "" ++ " ville") } :=
  ⟨by decide, fapScore_append_driving_mono { symptoms := some "fap" } " ville" (by decide)⟩

/-- C5 counterexample: for the single message
`"ça cale et ne démarre plus"` on a fresh session, the routing decision
computed for that turn is not the partner-garage route (it is the
generic route): `decideRouting` works from the slot map only, the
message soft-extracts no slots, and the non-drivable signal is not an
input of the routing decision. -/
theorem scenarioB_route_ce :
    (decideRouting
      (mergeSlots {} (softExtractSlots "ça cale et ne démarre plus"))).route ≠
      "partner_garage" := by
  decide

/-- C5 (amended): for a fresh session whose single message is
`"ça cale et ne démarre plus"`, the extracted non-drivable signal is
true, but the routing decision computed for that turn has the generic
route with a fault score below 40 — the non-drivable signal does not
feed `decideRouting`, which sees only the (empty) slot map. -/
theorem scenarioB_actual :
    (extractSignals "ça cale et ne démarre plus").nonDrivable = true ∧
    (decideRouting
      (mergeSlots {} (softExtractSlots "ça cale et ne démarre plus"))).route =
      "generic" ∧
    (decideRouting
      (mergeSlots {} (softExtractSlots "ça cale et ne démarre plus"))).score < 40 := by
  refine ⟨by decide, by decide, by decide⟩

/-- C6 counterexample: the three-turn session
`"Peugeot 206 1.6 HDi 2010"` / `"fumée noire en ville"` /
`"mode dégradé"` does not reach `READY_TO_OFFER` (stage `"offer"`) on
turn 3, and the vehicle slot is still absent after the third merge:
`softExtractSlots` never extracts a vehicle or driving slot. -/
theorem scenarioC_stage_ce :
    resStage scenarioCTurn3.1 ≠ some "offer" ∧
    (storeGet scenarioCTurn3.2 "s1").map (fun s => present s.vehicle) =
      some false := by
  refine ⟨by decide, by decide⟩

/-- C6 (amended): after the three turns of scenario C the session holds
only the symptoms text and the severity marker extracted from
`"mode dégradé"`; vehicle and driving are absent, and the stage on
turn 3 is still `"diag"` (`GATHERING`). -/
theorem scenarioC_actual :
    resStage scenarioCTurn3.1 = some "diag" ∧
    storeGet scenarioCTurn3.2 "s1" =
      some { symptoms := some " perte puissance/mode dégradé"
           , severe := some "oui" } := by
  refine ⟨by decide, by decide⟩

/-- C7 counterexample: the session merge does not write incoming slots
only when absent — an existing postcode `"75001"` is overwritten by the
postcode `"69002"` extracted from the incoming message. -/
theorem merge_overwrite_ce :
    ({ postcode := some "75001" } : Slots).postcode = some "75001" ∧
    (mergeSlots { postcode := some "75001" }
      (softExtractSlots "code postal 69002")).postcode = some "69002" ∧
    (some "69002" : Option String) ≠ some "75001" := by
  refine ⟨rfl, by decide, by decide⟩

/-- C7 (amended): the merge is `Object.assign`: every slot present in
the incoming extracted map overwrites the session value (symptoms
included — the incoming symptoms text replaces the stored one, with no
appending and no length cap), and slots absent from the incoming map
keep their session value; slots `softExtractSlots` never produces
(vehicle, mileage, driving, lights) are always kept. -/
theorem mergeSlots_overwrite (e : Slots) (m : String) :
    ((softExtractSlots m).symptoms.isSome = true →
      (mergeSlots e (softExtractSlots m)).symptoms = (softExtractSlots m).symptoms) ∧
    ((softExtractSlots m).symptoms = none →
      (mergeSlots e (softExtractSlots m)).symptoms = e.symptoms) ∧
    ((softExtractSlots m).postcode.isSome = true →
      (mergeSlots e (softExtractSlots m)).postcode = (softExtractSlots m).postcode) ∧
    ((softExtractSlots m).postcode = none →
      (mergeSlots e (softExtractSlots m)).postcode = e.postcode) ∧
    ((softExtractSlots m).plate.isSome = true →
      (mergeSlots e (softExtractSlots m)).plate = (softExtractSlots m).plate) ∧
    ((softExtractSlots m).plate = none →
      (mergeSlots e (softExtractSlots m)).plate = e.plate) ∧
    ((softExtractSlots m).canRemove.isSome = true →
      (mergeSlots e (softExtractSlots m)).canRemove = (softExtractSlots m).canRemove) ∧
    ((softExtractSlots m).canRemove = none →
      (mergeSlots e (softExtractSlots m)).canRemove = e.canRemove) ∧
    ((softExtractSlots m).adblue.isSome = true →
      (mergeSlots e (softExtractSlots m)).adblue = (softExtractSlots m).adblue) ∧
    ((softExtractSlots m).adblue = none →
      (mergeSlots e (softExtractSlots m)).adblue = e.adblue) ∧
    ((softExtractSlots m).severe.isSome = true →
      (mergeSlots e (softExtractSlots m)).severe = (softExtractSlots m).severe) ∧
    ((softExtractSlots m).severe = none →
      (mergeSlots e (softExtractSlots m)).severe = e.severe) ∧
    (mergeSlots e (softExtractSlots m)).vehicle = e.vehicle ∧
    (mergeSlots e (softExtractSlots m)).mileage = e.mileage ∧
    (mergeSlots e (softExtractSlots m)).driving = e.driving ∧
    (mergeSlots e (softExtractSlots m)).lights = e.lights := by
  refine ⟨fun h => ovr_isSome h, fun h => by rw [show (mergeSlots e (softExtractSlots m)).symptoms = ovr (softExtractSlots m).symptoms e.symptoms from rfl, h, ovr_none],
          fun h => ovr_isSome h, fun h => by rw [show (mergeSlots e (softExtractSlots m)).postcode = ovr (softExtractSlots m).postcode e.postcode from rfl, h, ovr_none],
          fun h => ovr_isSome h, fun h => by rw [show (mergeSlots e (softExtractSlots m)).plate = ovr (softExtractSlots m).plate e.plate from rfl, h, ovr_none],
          fun h => ovr_isSome h, fun h => by rw [show (mergeSlots e (softExtractSlots m)).canRemove = ovr (softExtractSlots m).canRemove e.canRemove from rfl, h, ovr_none],
          fun h => ovr_isSome h, fun h => by rw [show (mergeSlots e (softExtractSlots m)).adblue = ovr (softExtractSlots m).adblue e.adblue from rfl, h, ovr_none],
          fun h => ovr_isSome h, fun h => by rw [show (mergeSlots e (softExtractSlots m)).severe = ovr (softExtractSlots m).severe e.severe from rfl, h, ovr_none],
          rfl, rfl, rfl, rfl⟩

/-- Witness for `mergeSlots_overwrite`: the symptoms extracted from
`"mode dégradé"` overwrite the stored symptoms `"voyant fap"`. -/
theorem mergeSlots_overwrite_witness :
    ((softExtractSlots "mode dégradé").symptoms.isSome = true) ∧
    (mergeSlots { symptoms := some "voyant fap" }
      (softExtractSlots "mode dégradé")).symptoms =
      (softExtractSlots "mode dégradé").symptoms :=
  ⟨by decide,
   (mergeSlots_overwrite { symptoms := some "voyant fap" } "mode dégradé").1
     (by decide)⟩

/-- C1: `decideRouting` follows the spec's ordered decision table, first
match wins: severe with score ≥ 40 routes to the partner garage with the
diagnostic-booking CTA primary and postcode/plate asked when absent;
otherwise score ≥ 60 with can-self-remove yes routes to the
self-remove partner shop with the drop-off CTA primary; otherwise
score ≥ 60 routes to the partner garage (diagnostic-booking primary,
postcode/plate asked when absent); otherwise 40 ≤ score < 60 is
likely-but-uncertain with the diagnostic-booking CTA primary; otherwise
the generic route with the generic garage-finder CTA primary. -/
theorem decideRouting_follows_spec_table (slots : Slots) :
    (decideRouting slots).route = specRoute slots ∧
    ((decideRouting slots).ctas.head?).map (fun c => c.id) =
      some (specPrimaryId slots) ∧
    (decideRouting slots).needs = specNeeds slots := by
  by_cases hsev : severeFlag slots = true ∧ fapScore slots ≥ 40
  · simp [decideRouting, specRoute, specPrimaryId, specNeeds, hsev, ctaDiag]
  · by_cases h60 : fapScore slots ≥ 60
    · have h40 : fapScore slots ≥ 40 := by omega
      have hs : ¬severeFlag slots = true := fun hs' => hsev ⟨hs', h40⟩
      by_cases hcr : canRemoveYes slots = true
      · simp [decideRouting, specRoute, specPrimaryId, specNeeds, hs, h60,
          hcr, ctaCarter]
      · simp [decideRouting, specRoute, specPrimaryId, specNeeds, hs, h60,
          hcr, ctaDiag]
    · by_cases h40 : fapScore slots ≥ 40
      · have hs : ¬severeFlag slots = true := fun hs' => hsev ⟨hs', h40⟩
        simp [decideRouting, specRoute, specPrimaryId, specNeeds, hs, h60,
          h40, ctaDiagUncertain, ctaDiag]
      · simp [decideRouting, specRoute, specPrimaryId, specNeeds, h60,
          h40, ctaGeneric]

/-- C2: on every branch the routing decision emits exactly a
branch-specific primary CTA (of the diagnostic/drop-off/generic kind,
never informational or callback) at position 0, followed by the
informational CTA and the callback CTA; hence the list has length 3 and
at most one primary, and what the chat turn emits (the list capped at 3
by `slice(0, 3)`) has length at most 3. -/
theorem cta_list_invariant :
    (∀ slots : Slots, ∃ c : CTA,
        (decideRouting slots).ctas = [c, ctaRefap, ctaRappel] ∧
        (c.type = "fap" ∨ c.type = "generic")) ∧
    (∀ (msg : MsgField) (sid : Option String) (store : Store) (fresh : String),
        (resCtas (chatTurn msg sid store fresh).1).length ≤ 3) := by
  constructor
  · intro slots
    simp only [decideRouting]
    split_ifs
    · exact ⟨ctaDiag, rfl, Or.inl rfl⟩
    · exact ⟨ctaCarter, rfl, Or.inl rfl⟩
    · exact ⟨ctaDiag, rfl, Or.inl rfl⟩
    · exact ⟨ctaDiagUncertain, rfl, Or.inl rfl⟩
    · exact ⟨ctaGeneric, rfl, Or.inr rfl⟩
  · intro msg sid store fresh
    cases msg with
    | absent => simp [chatTurn, resCtas]
    | notString => simp [chatTurn, resCtas]
    | str m =>
      by_cases hm : m = ""
      · simp [chatTurn, hm, resCtas]
      · simp only [chatTurn, if_neg hm, resCtas, List.length_take]
        omega

/-- The token shape facts restated on `findToken`. -/
theorem findToken_some (shape : List (Char → Bool)) (t v : List Char)
    (h : findToken shape t = some v) :
    v.length = shape.length ∧ shapeMatches shape v = true :=
  findTokenAux_some shape false t v h

/-- C9: `softExtractSlots` returns a postcode only as a
boundary-delimited token of exactly 5 digits found in the text, and a
plate only as (the uppercasing of) a boundary-delimited token of the
text fully matching the fixed shape letter-letter-dash-digit-digit-digit-
dash-letter-letter; the malformed `"AAA-123-A"` leaves the plate (and
postcode) absent, while `"AA-123-AA"` and `"75001"` populate plate and
postcode. -/
theorem softExtract_token_shapes :
    (∀ (t : String) (p : String), (softExtractSlots t).postcode = some p →
        ∃ v : List Char, findToken postcodeShapeL (lowerList t.toList) = some v ∧
          p = String.mk v ∧ v.length = 5 ∧ v.all isDigitChar = true) ∧
    (∀ (t : String) (q : String), (softExtractSlots t).plate = some q →
        ∃ v : List Char, findToken plateShapeL (lowerList t.toList) = some v ∧
          q = String.mk (v.map upperChar) ∧ v.length = 9 ∧
          shapeMatches plateShapeL v = true) ∧
    (softExtractSlots "immatriculation AA-123-AA, code postal 75001").plate =
      some "AA-123-AA" ∧
    (softExtractSlots "immatriculation AA-123-AA, code postal 75001").postcode =
      some "75001" ∧
    (softExtractSlots "immatriculation AAA-123-A").plate = none ∧
    (softExtractSlots "immatriculation AAA-123-A").postcode = none := by
  refine ⟨?_, ?_, by decide, by decide, by decide, by decide⟩
  · intro t p h
    have h' : (findToken postcodeShapeL (lowerList t.toList)).map
        (fun l => String.mk l) = some p := h
    cases hf : findToken postcodeShapeL (lowerList t.toList) with
    | none => rw [hf] at h'; cases h'
    | some v =>
      rw [hf] at h'
      have hv := findToken_some postcodeShapeL _ v hf
      refine ⟨v, rfl, (Option.some.inj h').symm, hv.1.trans rfl, ?_⟩
      exact shapeMatches_replicate_all 5 _ v (by exact hv.2) (hv.1.trans rfl)
  · intro t q h
    have h' : (findToken plateShapeL (lowerList t.toList)).map
        (fun l => String.mk (l.map upperChar)) = some q := h
    cases hf : findToken plateShapeL (lowerList t.toList) with
    | none => rw [hf] at h'; cases h'
    | some v =>
      rw [hf] at h'
      have hv := findToken_some plateShapeL _ v hf
      exact ⟨v, rfl, (Option.some.inj h').symm, hv.1.trans rfl, hv.2⟩

/-- Witness for `softExtract_token_shapes`: applying the postcode part
to the populated scenario message. -/
theorem softExtract_token_shapes_witness :
    ∃ v : List Char,
      findToken postcodeShapeL
        (lowerList "immatriculation AA-123-AA, code postal 75001".toList) =
        some v ∧
      "75001" = String.mk v ∧ v.length = 5 ∧ v.all isDigitChar = true :=
  softExtract_token_shapes.1 "immatriculation AA-123-AA, code postal 75001"
    "75001" (by decide)

/-- C10: a chat request whose message field is absent or not a string
gets the 400 response and leaves the session store untouched (no
session created or mutated); a request with a valid (non-empty string)
message and no session id gets a response echoing the server-generated
fresh session id. -/
theorem chat_endpoint_validation (sid : Option String) (store : Store)
    (fresh : String) :
    chatTurn .absent sid store fresh = (.badRequest, store) ∧
    chatTurn .notString sid store fresh = (.badRequest, store) ∧
    (∀ m : String, m ≠ "" →
      resSessionId ((chatTurn (.str m) none store fresh).1) = some fresh) := by
  refine ⟨rfl, rfl, ?_⟩
  intro m hm
  simp [chatTurn, hm, resSessionId]

/-- Witness for `chat_endpoint_validation`: an absent message leaves an
empty store empty; a fresh-session `"bonjour"` turn echoes the
generated id. -/
theorem chat_endpoint_validation_witness :
    chatTurn .absent none [] "gen-1" = (.badRequest, []) ∧
    ("bonjour" ≠ "" ∧
      resSessionId ((chatTurn (.str "bonjour") none [] "gen-1").1) =
        some "gen-1") :=
  ⟨(chat_endpoint_validation none [] "gen-1").1,
   by decide,
   (chat_endpoint_validation none [] "gen-1").2.2 "bonjour" (by decide)⟩

end ReFap



